import Mathlib

/-!
# BlueZ `src/event.c`: credential codec, pairing replies and device lifecycle

A shallow embedding of the event handlers of `src/event.c`.

* C strings are lists (`List Char` for text that is formatted, `List Nat` for raw
  name and PIN bytes); the list holds the bytes before the terminating NUL.
* Machine integers are `Nat` (unsigned bytes and words) or `Int` (`int`, `ssize_t`).
* The adapter and device registries, the controller reply path and the storage layer
  live outside `event.c`.  Calls into them are recorded, in order, in `World.calls`;
  their results are taken from an `Env` value and their effect on the registry is
  modelled on the registry state `Registry`.
-/

namespace Bluez

/-! ## Formatting primitives of libc -/

/-- The NUL character that terminates a C string. -/
def NUL : Char := Char.ofNat 0

/-- Digits used by the `x` conversion of `printf`. -/
def hexchars : List Char := "0123456789abcdef".toList

/-- Output of the conversion `%2.2x` for a non-negative argument: lower-case
hexadecimal, at least two digits, padded with zeros on the left. -/
def fmt_2_2x (v : Nat) : List Char :=
  let ds := Nat.toDigits 16 v
  List.replicate (2 - ds.length) '0' ++ ds

/-- Output of the conversion `%d` for a non-negative argument. -/
def fmt_d (v : Nat) : List Char := Nat.toDigits 10 v

/-- Store the characters `cs` into `buf` from offset `off` on. -/
def poke (buf : List Char) (off : Nat) : List Char → List Char
  | [] => buf
  | c :: cs => poke (buf.set off c) (off + 1) cs

/-- The call `sprintf(buf + off, "%2.2x", v)`: the digits and a terminating NUL. -/
def sprintf_2_2x (buf : List Char) (off : Nat) (v : Nat) : List Char :=
  poke buf off (fmt_2_2x v ++ [NUL])

/-- The C string held by a buffer: the characters before the first NUL. -/
def cstr (buf : List Char) : List Char := buf.takeWhile (fun c => c != NUL)

/-! ## `buf2str` -/

/-- The function `buf2str(data, datalen)`.  `alloc_ok` tells whether `g_try_new0`
returned a buffer; the buffer has `datalen * 2 + 1` zeroed characters and the loop
prints byte `data[i]` at offset `i * 2`.  The size is computed without overflow: the
callers pass 16 and 8, and only a `datalen` of `2 ^ 30` or more would leave `int`. -/
def buf2str (alloc_ok : Bool) (data : List Nat) (datalen : Nat) : Option (List Char) :=
  if alloc_ok then
    let buf := List.replicate (datalen * 2 + 1) NUL
    some (cstr ((List.range datalen).foldl
      (fun b i => sprintf_2_2x b (i * 2) (data.getD i 0)) buf))
  else
    none

/-! ## Values of `errno.h` -/

/-- Value of `ENOMEM` in `errno.h`. -/
def ENOMEM : Int := 12

/-- Value of `ENODEV` in `errno.h`. -/
def ENODEV : Int := 19

/-! ## Registry state

The adapter and device registries are owned by `manager.c`, `adapter.c` and
`device.c`.  The state below holds what the handlers of `event.c` read and change. -/

/-- Verification method of a bonding session. -/
inductive Method where
  | pin_entry
  | numeric_confirmation
  | passkey_display
  | passkey_entry
deriving DecidableEq, Repr

/-- Modelled from the spec: the attributes of a remote device record
(`struct btd_device`, declared in `device.c`). -/
structure Device where
  addr : Nat
  addr_type : Nat
  name : List Nat
  bonded : Bool
  temporary : Bool
  blocked : Bool
  paired : Bool
  connections : Nat
  bonding : Option Method
deriving DecidableEq, Repr

/-- A non-NULL `struct btd_device *`: the owning adapter and the peer address. -/
structure DevRef where
  adapter : Nat
  addr : Nat
deriving DecidableEq, Repr

/-- A `struct btd_device *`; `none` is the NULL pointer. -/
abbrev DevPtr := Option DevRef

/-- Modelled from the spec: the registries, as the list of controller addresses the
manager knows and the device records, each with the address of its controller. -/
structure Registry where
  adapters : List Nat
  devices : List (Nat × Device)
deriving DecidableEq, Repr

/-- Does the entry belong to the handle? -/
def DevRef.owns (d : DevRef) (p : Nat × Device) : Bool :=
  p.1 == d.adapter && p.2.addr == d.addr

/-- The record a handle points to. -/
def Registry.find (reg : Registry) (d : DevRef) : Option Device :=
  (reg.devices.find? d.owns).map Prod.snd

/-- The record behind a pointer; NULL has none. -/
def Registry.deref (reg : Registry) : DevPtr → Option Device
  | none => none
  | some d => reg.find d

/-- Apply `f` to the record behind a pointer; NULL names no record. -/
def Registry.modify (reg : Registry) (p : DevPtr) (f : Device → Device) : Registry :=
  match p with
  | none => reg
  | some d =>
    { reg with devices := reg.devices.map (fun e => if d.owns e then (e.1, f e.2) else e) }

/-- Delete the record behind a pointer. -/
def Registry.remove (reg : Registry) (p : DevPtr) : Registry :=
  match p with
  | none => reg
  | some d => { reg with devices := reg.devices.filter (fun e => !d.owns e) }

/-- Modelled from the spec: a record made by the create-if-absent primitive of
`adapter.c` is temporary, not bonded, not blocked, unconnected and has no bonding
session. -/
def Device.fresh (addr : Nat) : Device :=
  { addr := addr, addr_type := 0, name := [], bonded := false, temporary := true,
    blocked := false, paired := false, connections := 0, bonding := none }

/-! ## Calls that leave `event.c` -/

/-- A call of a function that is defined outside `event.c`, with its arguments.
Lookups (`manager_find_adapter`, `adapter_find_device`, `adapter_get_device`) and
the getters of a handle are not recorded. -/
inductive Call where
  | error (msg : String)
  | btd_adapter_get_pin (adapter : Nat) (device : DevPtr)
  | btd_adapter_pincode_reply (adapter : Nat) (bdaddr : Nat) (pin : Option (List Nat))
      (pin_len : Nat)
  | btd_adapter_confirm_reply (adapter : Nat) (bdaddr : Nat) (bdaddr_type : Nat)
      (success : Bool)
  | btd_adapter_passkey_reply (adapter : Nat) (bdaddr : Nat) (bdaddr_type : Nat)
      (passkey : Nat)
  | device_is_bonding (device : DevPtr)
  | device_notify_pincode (device : DevPtr) (secure : Bool) (pin : List Nat)
  | device_request_pincode (device : DevPtr) (secure : Bool)
  | device_cancel_bonding (device : DevPtr) (status : Nat)
  | device_is_temporary (device : DevPtr)
  | device_set_temporary (device : DevPtr) (temporary : Bool)
  | device_set_bonded (device : DevPtr) (bonded : Bool)
  | device_is_connected (device : DevPtr)
  | device_request_disconnect (device : DevPtr)
  | device_block (device : DevPtr) (update_only : Bool)
  | device_unblock (device : DevPtr) (silent : Bool) (update_only : Bool)
  | device_set_name (device : DevPtr) (name : List Nat)
  | adapter_remove_device (adapter : Nat) (device : DevPtr) (remove_storage : Bool)
  | adapter_remove_connection (adapter : Nat) (device : DevPtr)
  | write_longtermkeys (local_addr : Nat) (peer : Nat) (bdaddr_type : Nat)
      (key : List Char)
  | write_link_key (local_addr : Nat) (peer : Nat) (peer_type : Nat) (key : List Nat)
      (key_type : Nat) (pin_length : Nat)
  | create_file (local_addr : Nat) (peer : Nat)
  | g_key_file_set_string (group : String) (key : String) (value : List Nat)
  | g_file_set_contents (local_addr : Nat) (peer : Nat)
deriving DecidableEq, Repr

/-- Results of the calls whose outcome `event.c` does not decide. -/
structure Env where
  /-- whether `adapter_get_device` can create a missing record -/
  create_ok : Bool
  /-- whether `g_try_new0` succeeds in `buf2str(key, 16)` -/
  alloc_key : Bool
  /-- whether `g_try_new0` succeeds in `buf2str(rand, 8)` -/
  alloc_rand : Bool
  /-- result of `btd_adapter_get_pin`: returned length, PIN buffer, display flag -/
  cached_pin : Int × List Nat × Bool
  /-- status of `btd_adapter_pincode_reply` -/
  pincode_reply : Int
  /-- status of `btd_adapter_confirm_reply` -/
  confirm_reply : Int
  /-- status of `btd_adapter_passkey_reply` -/
  passkey_reply : Int
  /-- status of `device_notify_pincode` -/
  notify_pincode : Int
  /-- status of `device_request_pincode` -/
  request_pincode : Int
  /-- status of `write_longtermkeys` -/
  longtermkeys_status : Int
  /-- status of `write_link_key` -/
  link_key_status : Int

/-- Registry state and the calls made so far, oldest first. -/
structure World where
  reg : Registry
  calls : List Call
deriving DecidableEq, Repr

/-- A world with no call made yet. -/
def World.init (reg : Registry) : World := { reg := reg, calls := [] }

/-- Record a call. -/
def World.call (w : World) (c : Call) : World := { w with calls := w.calls ++ [c] }

/-! ## Primitives of the collaborators -/

/-- The logging call `error(...)`. -/
def error (w : World) (msg : String) : World := w.call (Call.error msg)

/-- Modelled from the spec: lookup of the controller context for an address
(`manager_find_adapter`, in `manager.c`). -/
def manager_find_adapter (w : World) (src : Nat) : Option Nat :=
  if src ∈ w.reg.adapters then some src else none

/-- Modelled from the spec: lookup of an existing device record
(`adapter_find_device`, in `adapter.c`). -/
def adapter_find_device (w : World) (adapter : Nat) (peer : Nat) : DevPtr :=
  if (w.reg.find ⟨adapter, peer⟩).isSome then some ⟨adapter, peer⟩ else none

/-- Modelled from the spec: the create-if-absent primitive (`adapter_get_device`, in
`adapter.c`), which returns the existing record or creates one and can fail. -/
def adapter_get_device (env : Env) (w : World) (adapter : Nat) (peer : Nat) :
    DevPtr × World :=
  match adapter_find_device w adapter peer with
  | some d => (some d, w)
  | none =>
    if env.create_ok then
      (some ⟨adapter, peer⟩,
        { w with reg := { w.reg with
            devices := w.reg.devices ++ [(adapter, Device.fresh peer)] } })
    else (none, w)

/-- Getter `device_get_adapter`. -/
def device_get_adapter (device : DevRef) : Nat := device.adapter

/-- Getter `device_get_address`. -/
def device_get_address (device : DevRef) : Nat := device.addr

/-- Getter `device_get_addr_type`. -/
def device_get_addr_type (w : World) (device : DevRef) : Nat :=
  match w.reg.find device with
  | some r => r.addr_type
  | none => 0

/-- Modelled from the spec: `device_is_bonding(device, NULL)` (in `device.c`) tells
whether a bonding session is in progress. -/
def device_is_bonding (w : World) (device : DevPtr) : Bool × World :=
  (match w.reg.deref device with
   | some r => r.bonding.isSome
   | none => false,
   w.call (Call.device_is_bonding device))

/-- Modelled from the spec: `device_cancel_bonding` (in `device.c`) clears the
bonding-in-progress method of the device. -/
def device_cancel_bonding (w : World) (device : DevPtr) (status : Nat) : World :=
  { reg := w.reg.modify device (fun r => { r with bonding := none }),
    calls := w.calls ++ [Call.device_cancel_bonding device status] }

/-- Modelled from the spec: `device_is_temporary` (in `device.c`) reads the temporary
flag. -/
def device_is_temporary (w : World) (device : DevPtr) : Bool × World :=
  (match w.reg.deref device with
   | some r => r.temporary
   | none => false,
   w.call (Call.device_is_temporary device))

/-- Modelled from the spec: the mutation primitive set-temporary
(`device_set_temporary`, in `device.c`). -/
def device_set_temporary (w : World) (device : DevPtr) (temporary : Bool) : World :=
  { reg := w.reg.modify device (fun r => { r with temporary := temporary }),
    calls := w.calls ++ [Call.device_set_temporary device temporary] }

/-- Modelled from the spec: the mutation primitive set-bonded (`device_set_bonded`,
in `device.c`). -/
def device_set_bonded (w : World) (device : DevPtr) (bonded : Bool) : World :=
  { reg := w.reg.modify device (fun r => { r with bonded := bonded }),
    calls := w.calls ++ [Call.device_set_bonded device bonded] }

/-- Modelled from the spec: `device_is_connected` (in `device.c`) tells whether the
device has a registered connection. -/
def device_is_connected (w : World) (device : DevPtr) : Bool × World :=
  (match w.reg.deref device with
   | some r => decide (0 < r.connections)
   | none => false,
   w.call (Call.device_is_connected device))

/-- Modelled from the spec: the request-disconnect primitive
(`device_request_disconnect`, in `device.c`); the disconnection itself is reported by
a later event. -/
def device_request_disconnect (w : World) (device : DevPtr) : World :=
  w.call (Call.device_request_disconnect device)

/-- Modelled from the spec: the request-removal primitive (`adapter_remove_device`, in
`adapter.c`) deletes the device record. -/
def adapter_remove_device (w : World) (adapter : Nat) (device : DevPtr)
    (remove_storage : Bool) : World :=
  { reg := w.reg.remove device,
    calls := w.calls ++ [Call.adapter_remove_device adapter device remove_storage] }

/-- Modelled from the spec: the remove-connection primitive
(`adapter_remove_connection`, in `adapter.c`) deregisters a connection. -/
def adapter_remove_connection (w : World) (adapter : Nat) (device : DevPtr) : World :=
  { reg := w.reg.modify device (fun r => { r with connections := r.connections - 1 }),
    calls := w.calls ++ [Call.adapter_remove_connection adapter device] }

/-- Modelled from the spec: the block primitive (`device_block`, in `device.c`) sets
the blocked flag. -/
def device_block (w : World) (device : DevPtr) (update_only : Bool) : World :=
  { reg := w.reg.modify device (fun r => { r with blocked := true }),
    calls := w.calls ++ [Call.device_block device update_only] }

/-- Modelled from the spec: the unblock primitive (`device_unblock`, in `device.c`)
clears the blocked flag. -/
def device_unblock (w : World) (device : DevPtr) (silent : Bool) (update_only : Bool) :
    World :=
  { reg := w.reg.modify device (fun r => { r with blocked := false }),
    calls := w.calls ++ [Call.device_unblock device silent update_only] }

/-- Modelled from the spec: the mutation primitive set-name (`device_set_name`, in
`device.c`). -/
def device_set_name (w : World) (device : DevPtr) (name : List Nat) : World :=
  { reg := w.reg.modify device (fun r => { r with name := name }),
    calls := w.calls ++ [Call.device_set_name device name] }

/-- The cached PIN lookup `btd_adapter_get_pin(adapter, device, pin, &display)`. -/
def btd_adapter_get_pin (env : Env) (w : World) (adapter : Nat) (device : DevPtr) :
    (Int × List Nat × Bool) × World :=
  (env.cached_pin, w.call (Call.btd_adapter_get_pin adapter device))

/-- The controller reply `btd_adapter_pincode_reply`. -/
def btd_adapter_pincode_reply (env : Env) (w : World) (adapter : Nat) (bdaddr : Nat)
    (pin : Option (List Nat)) (pin_len : Nat) : Int × World :=
  (env.pincode_reply, w.call (Call.btd_adapter_pincode_reply adapter bdaddr pin pin_len))

/-- The controller reply `btd_adapter_confirm_reply`. -/
def btd_adapter_confirm_reply (env : Env) (w : World) (adapter : Nat) (bdaddr : Nat)
    (bdaddr_type : Nat) (success : Bool) : Int × World :=
  (env.confirm_reply,
    w.call (Call.btd_adapter_confirm_reply adapter bdaddr bdaddr_type success))

/-- The controller reply `btd_adapter_passkey_reply`. -/
def btd_adapter_passkey_reply (env : Env) (w : World) (adapter : Nat) (bdaddr : Nat)
    (bdaddr_type : Nat) (passkey : Nat) : Int × World :=
  (env.passkey_reply,
    w.call (Call.btd_adapter_passkey_reply adapter bdaddr bdaddr_type passkey))

/-- The agent request `device_notify_pincode(device, secure, pin, cb)`. -/
def device_notify_pincode (env : Env) (w : World) (device : DevPtr) (secure : Bool)
    (pin : List Nat) : Int × World :=
  (env.notify_pincode, w.call (Call.device_notify_pincode device secure pin))

/-- The agent request `device_request_pincode(device, secure, cb)`. -/
def device_request_pincode (env : Env) (w : World) (device : DevPtr) (secure : Bool) :
    Int × World :=
  (env.request_pincode, w.call (Call.device_request_pincode device secure))

/-- The storage call `write_longtermkeys(local, peer, bdaddr_type, key)`. -/
def write_longtermkeys (env : Env) (w : World) (local_addr peer bdaddr_type : Nat)
    (key : List Char) : Int × World :=
  (env.longtermkeys_status,
    w.call (Call.write_longtermkeys local_addr peer bdaddr_type key))

/-- The storage call `write_link_key(local, peer, peer_type, key, key_type, pin_length)`. -/
def write_link_key (env : Env) (w : World) (local_addr peer peer_type : Nat)
    (key : List Nat) (key_type pin_length : Nat) : Int × World :=
  (env.link_key_status,
    w.call (Call.write_link_key local_addr peer peer_type key key_type pin_length))

/-! ## glib and libc string helpers used by the name path -/

/-- The macro `isascii` on a byte. -/
def isascii (c : Nat) : Bool := decide (c < 128)

/-- The test `g_ascii_isspace` of glib: space, tab, line feed, form feed, carriage
return. -/
def g_ascii_isspace (c : Nat) : Bool :=
  c == 32 || c == 9 || c == 10 || c == 12 || c == 13

/-- The function `g_strchug`: drops leading white space. -/
def g_strchug (s : List Nat) : List Nat := s.dropWhile g_ascii_isspace

/-- The function `g_strchomp`: drops trailing white space. -/
def g_strchomp (s : List Nat) : List Nat := (s.reverse.dropWhile g_ascii_isspace).reverse

/-- The macro `g_strstrip(s)`, which is `g_strchomp(g_strchug(s))`. -/
def g_strstrip (s : List Nat) : List Nat := g_strchomp (g_strchug s)

/-- The call `strncpy(dst, name, n)` into a zeroed buffer of `n + 1` bytes: the C
string left in `dst`. -/
def strncpy (name : List Nat) (n : Nat) : List Nat := name.take n

/-- Is the byte a UTF-8 continuation byte? -/
def utf8_cont (b : Nat) : Bool := decide (0x80 ≤ b) && decide (b ≤ 0xBF)

/-- The function `g_utf8_validate(str, -1, NULL)` of glib: is the C string well-formed
UTF-8 (no overlong form, no surrogate, nothing above U+10FFFF)? -/
def g_utf8_validate : List Nat → Bool
  | [] => true
  | b0 :: rest =>
    if b0 < 0x80 then g_utf8_validate rest
    else
      match rest with
      | [] => false
      | b1 :: r1 =>
        if 0xC2 ≤ b0 ∧ b0 ≤ 0xDF then utf8_cont b1 && g_utf8_validate r1
        else
          match r1 with
          | [] => false
          | b2 :: r2 =>
            if b0 = 0xE0 then
              decide (0xA0 ≤ b1) && decide (b1 ≤ 0xBF) && utf8_cont b2 && g_utf8_validate r2
            else if b0 = 0xED then
              decide (0x80 ≤ b1) && decide (b1 ≤ 0x9F) && utf8_cont b2 && g_utf8_validate r2
            else if 0xE1 ≤ b0 ∧ b0 ≤ 0xEF then
              utf8_cont b1 && utf8_cont b2 && g_utf8_validate r2
            else
              match r2 with
              | [] => false
              | b3 :: r3 =>
                if b0 = 0xF0 then
                  decide (0x90 ≤ b1) && decide (b1 ≤ 0xBF) && utf8_cont b2 && utf8_cont b3
                    && g_utf8_validate r3
                else if 0xF1 ≤ b0 ∧ b0 ≤ 0xF3 then
                  utf8_cont b1 && utf8_cont b2 && utf8_cont b3 && g_utf8_validate r3
                else if b0 = 0xF4 then
                  decide (0x80 ≤ b1) && decide (b1 ≤ 0x8F) && utf8_cont b2 && utf8_cont b3
                    && g_utf8_validate r3
                else false

/-! ## The functions of `event.c` -/

/-- The function `get_adapter_and_device`.  `none` is the result `FALSE`; on `TRUE` the
adapter and the device pointer (possibly NULL when `create` is false) are returned. -/
def get_adapter_and_device (env : Env) (w : World) (src dst : Nat) (create : Bool) :
    Option (Nat × DevPtr) × World :=
  match manager_find_adapter w src with
  | none => (none, error w "Unable to find matching adapter")
  | some adapter =>
    let r : DevPtr × World :=
      if create then adapter_get_device env w adapter dst
      else (adapter_find_device w adapter dst, w)
    if create = true ∧ r.1 = none then
      (none, error r.2 "Unable to get device object!")
    else
      (some (adapter, r.1), r.2)

/-- The callback `pincode_cb(agent, derr, pincode, device)`. -/
def pincode_cb (env : Env) (w : World) (derr : Option String)
    (pincode : Option (List Nat)) (device : DevRef) : World :=
  let adapter := device_get_adapter device
  match derr with
  | some _ =>
    let r := btd_adapter_pincode_reply env w adapter (device_get_address device) none 0
    if r.1 < 0 then error r.2 "Sending PIN code reply failed" else r.2
  | none =>
    let r := btd_adapter_pincode_reply env w adapter (device_get_address device) pincode
      (match pincode with
       | some p => p.length
       | none => 0)
    if r.1 < 0 then error r.2 "Sending PIN code reply failed" else r.2

/-- The function `btd_event_request_pin(sba, dba, secure)`. -/
def btd_event_request_pin (env : Env) (w : World) (sba dba : Nat) (secure : Bool) :
    Int × World :=
  match get_adapter_and_device env w sba dba true with
  | (none, w) => (-ENODEV, w)
  | (some (adapter, device), w) =>
    let g := btd_adapter_get_pin env w adapter device
    let pinlen := g.1.1
    let pin := g.1.2.1
    let display := g.1.2.2
    let w := g.2
    if 0 < pinlen ∧ (secure = false ∨ pinlen = 16) then
      let b : Bool × World := if display then device_is_bonding w device else (false, w)
      if display = true ∧ b.1 = true then
        device_notify_pincode env b.2 device secure pin
      else
        let r := btd_adapter_pincode_reply env b.2 adapter dba (some pin) pinlen.toNat
        (0, r.2)
    else
      device_request_pincode env w device secure

/-- The function `confirm_reply(adapter, device, success)`. -/
def confirm_reply (env : Env) (w : World) (adapter : Nat) (device : DevRef)
    (success : Bool) : Int × World :=
  btd_adapter_confirm_reply env w adapter (device_get_address device)
    (device_get_addr_type w device) success

/-- The callback `confirm_cb(agent, err, user_data)`. -/
def confirm_cb (env : Env) (w : World) (err : Option String) (user_data : DevRef) :
    World :=
  let device := user_data
  let adapter := device_get_adapter device
  let success := if err = none then true else false
  (confirm_reply env w adapter device success).2

/-- The callback `passkey_cb(agent, err, passkey, user_data)`; `INVALID_PASSKEY` is a
constant of `device.h`. -/
def passkey_cb (INVALID_PASSKEY : Nat) (env : Env) (w : World) (err : Option String)
    (passkey : Nat) (user_data : DevRef) : World :=
  let device := user_data
  let adapter := device_get_adapter device
  let passkey := if err.isSome then INVALID_PASSKEY else passkey
  (btd_adapter_passkey_reply env w adapter (device_get_address device)
    (device_get_addr_type w device) passkey).2

/-- The function `btd_event_remote_name(local, peer, name)`; `MGMT_MAX_NAME_LENGTH` is
a constant of `mgmt.h`. -/
def btd_event_remote_name (MGMT_MAX_NAME_LENGTH : Nat) (env : Env) (w : World)
    (local_addr peer : Nat) (name : List Nat) : World :=
  let name :=
    if g_utf8_validate name = false then
      let utf8_name := strncpy name MGMT_MAX_NAME_LENGTH
      let utf8_name := utf8_name.map (fun c => if isascii c then c else 32)
      g_strstrip utf8_name
    else name
  match get_adapter_and_device env w local_addr peer false with
  | (none, w) => w
  | (some (_, device), w) =>
    let w := w.call (Call.create_file local_addr peer)
    let w := w.call (Call.g_key_file_set_string "General" "Name" name)
    let w := w.call (Call.g_file_set_contents local_addr peer)
    if device.isSome then device_set_name w device name else w

/-- The function `store_longtermkey`. -/
def store_longtermkey (env : Env) (w : World) (local_addr peer bdaddr_type : Nat)
    (key : List Nat) (master authenticated enc_size ediv : Nat) (rand : List Nat) :
    Int × World :=
  match buf2str env.alloc_key key 16 with
  | none => (-ENOMEM, w)
  | some val =>
    let newkey := val
    let newkey := newkey ++ ([' '] ++ fmt_d authenticated ++ [' '] ++ fmt_d master ++ [' ']
      ++ fmt_d enc_size ++ [' '] ++ fmt_d ediv ++ [' '])
    match buf2str env.alloc_rand rand 8 with
    | none => (-ENOMEM, w)
    | some str =>
      let newkey := newkey ++ str
      write_longtermkeys env w local_addr peer bdaddr_type newkey

/-- The function `btd_event_link_key_notify`. -/
def btd_event_link_key_notify (env : Env) (w : World) (local_addr peer : Nat)
    (key : List Nat) (key_type pin_length : Nat) : Int × World :=
  match get_adapter_and_device env w local_addr peer true with
  | (none, w) => (-ENODEV, w)
  | (some (_, device), w) =>
    let peer_type := match device with
      | some d => device_get_addr_type w d
      | none => 0
    let r := write_link_key env w local_addr peer peer_type key key_type pin_length
    let ret := r.1
    if ret = 0 then
      let w := device_set_bonded r.2 device true
      let t := device_is_temporary w device
      (ret, if t.1 then device_set_temporary t.2 device false else t.2)
    else
      (ret, r.2)

/-- The function `btd_event_ltk_notify`. -/
def btd_event_ltk_notify (env : Env) (w : World) (local_addr peer bdaddr_type : Nat)
    (key : List Nat) (master authenticated enc_size ediv : Nat) (rand : List Nat) :
    Int × World :=
  match get_adapter_and_device env w local_addr peer true with
  | (none, w) => (-ENODEV, w)
  | (some (_, device), w) =>
    let r := store_longtermkey env w local_addr peer bdaddr_type key master authenticated
      enc_size ediv rand
    let ret := r.1
    if ret = 0 then
      let w := device_set_bonded r.2 device true
      let t := device_is_temporary w device
      (ret, if t.1 then device_set_temporary t.2 device false else t.2)
    else
      (ret, r.2)

/-- The function `btd_event_conn_failed(local, peer, status)`. -/
def btd_event_conn_failed (env : Env) (w : World) (local_addr peer : Nat)
    (status : Nat) : World :=
  match get_adapter_and_device env w local_addr peer false with
  | (none, w) => w
  | (some (adapter, device), w) =>
    if device = none then w
    else
      let b := device_is_bonding w device
      let w := if b.1 then device_cancel_bonding b.2 device status else b.2
      let t := device_is_temporary w device
      if t.1 then adapter_remove_device t.2 adapter device true else t.2

/-- The function `btd_event_disconn_complete(local, peer)`. -/
def btd_event_disconn_complete (env : Env) (w : World) (local_addr peer : Nat) : World :=
  match get_adapter_and_device env w local_addr peer false with
  | (none, w) => w
  | (some (adapter, device), w) =>
    if device = none then w
    else adapter_remove_connection w adapter device

/-- The function `btd_event_device_blocked(local, peer)`. -/
def btd_event_device_blocked (env : Env) (w : World) (local_addr peer : Nat) : World :=
  match get_adapter_and_device env w local_addr peer false with
  | (none, w) => w
  | (some (_, device), w) =>
    if device.isSome then device_block w device true else w

/-- The function `btd_event_device_unblocked(local, peer)`. -/
def btd_event_device_unblocked (env : Env) (w : World) (local_addr peer : Nat) : World :=
  match get_adapter_and_device env w local_addr peer false with
  | (none, w) => w
  | (some (_, device), w) =>
    if device.isSome then device_unblock w device false true else w

/-- The function `btd_event_device_unpaired(local, peer)`.  The device pointer is used
without a NULL test. -/
def btd_event_device_unpaired (env : Env) (w : World) (local_addr peer : Nat) : World :=
  match get_adapter_and_device env w local_addr peer false with
  | (none, w) => w
  | (some (adapter, device), w) =>
    let w := device_set_temporary w device true
    let c := device_is_connected w device
    if c.1 then device_request_disconnect c.2 device
    else adapter_remove_device c.2 adapter device true

/-! ## Vocabulary of the statements -/

/-- Two hexadecimal digits of a byte. -/
def hex2 (b : Nat) : List Char := [Nat.digitChar (b / 16), Nat.digitChar (b % 16)]

/-- Text of a byte list: the two digits of every byte, in order. -/
def hexs (data : List Nat) : List Char := data.flatMap hex2

/-- Value of a decimal digit character. -/
def digitVal (c : Char) : Nat := c.toNat - 48

/-- Value of a decimal numeral. -/
def ofDec (s : List Char) : Nat := s.foldl (fun acc c => 10 * acc + digitVal c) 0

/-- An LE credential tuple, the arguments `key`, `master`, `authenticated`, `enc_size`,
`ediv` and `rand` of `store_longtermkey`. -/
structure LeTuple where
  key : List Nat
  master : Nat
  authenticated : Nat
  enc_size : Nat
  ediv : Nat
  rand : List Nat
deriving DecidableEq, Repr

/-- The tuple fits the C types: `key` has 16 bytes, `rand` has 8 bytes, the flags and
the key size are `uint8_t` and `ediv` is `uint16_t`. -/
def LeTuple.wf (t : LeTuple) : Prop :=
  t.key.length = 16 ∧ (∀ b ∈ t.key, b < 256) ∧ t.master < 256 ∧ t.authenticated < 256 ∧
    t.enc_size < 256 ∧ t.ediv < 65536 ∧ t.rand.length = 8 ∧ (∀ b ∈ t.rand, b < 256)

/-- The texts handed to `write_longtermkeys` by a list of calls. -/
def longtermkey_texts (calls : List Call) : List (List Char) :=
  calls.filterMap (fun c =>
    match c with
    | Call.write_longtermkeys _ _ _ k => some k
    | _ => none)

/-- The calls `store_longtermkey` makes for a tuple, from a world with no call. -/
def store_calls (env : Env) (reg : Registry) (local_addr peer bdaddr_type : Nat)
    (t : LeTuple) : List Call :=
  (store_longtermkey env (World.init reg) local_addr peer bdaddr_type t.key t.master
    t.authenticated t.enc_size t.ediv t.rand).2.calls

/-- An environment in which every allocation and every call succeeds and no PIN is
cached. -/
def Env.ok : Env :=
  { create_ok := true, alloc_key := true, alloc_rand := true, cached_pin := (0, [], false),
    pincode_reply := 0, confirm_reply := 0, passkey_reply := 0, notify_pincode := 0,
    request_pincode := 0, longtermkeys_status := 0, link_key_status := 0 }

/-- The six fields of the LE text, in the order `store_longtermkey` prints them. -/
def le_fields (t : LeTuple) : List (List Char) :=
  [hexs t.key, fmt_d t.authenticated, fmt_d t.master, fmt_d t.enc_size, fmt_d t.ediv,
    hexs t.rand]

/-- The six fields in the order of the data model of the specification: key, is-master
flag, authenticated flag, encryption key size, EDIV, random value. -/
def le_fields_spec_order (t : LeTuple) : List (List Char) :=
  [hexs t.key, fmt_d t.master, fmt_d t.authenticated, fmt_d t.enc_size, fmt_d t.ediv,
    hexs t.rand]

/-- A tuple whose two flags differ. -/
def LeTuple.sample : LeTuple :=
  { key := [0, 1, 2, 3, 4, 5, 6, 7, 8, 9, 10, 11, 12, 13, 14, 255], master := 1,
    authenticated := 0, enc_size := 16, ediv := 4660, rand := [1, 35, 69, 103, 137, 171, 205, 239] }

/-- Is the call one of the three ways `btd_event_request_pin` answers a PIN request:
a direct controller reply, a display notification through the agent, or agent-driven
PIN entry? -/
def is_pin_method (c : Call) : Bool :=
  match c with
  | Call.btd_adapter_pincode_reply _ _ _ _ => true
  | Call.device_notify_pincode _ _ _ => true
  | Call.device_request_pincode _ _ => true
  | _ => false

/-- Is the call a reply to the controller? -/
def is_reply (c : Call) : Bool :=
  match c with
  | Call.btd_adapter_pincode_reply _ _ _ _ => true
  | Call.btd_adapter_confirm_reply _ _ _ _ => true
  | Call.btd_adapter_passkey_reply _ _ _ _ => true
  | _ => false

/-- A registry with controller 1 and one known peer 2, which is temporary and has a
PIN-entry bonding session in progress. -/
def Registry.sample : Registry :=
  { adapters := [1],
    devices := [(1, { Device.fresh 2 with bonding := some Method.pin_entry })] }

/-- An environment with the cached PIN 1234 (not for display) in which the controller
rejects the PIN reply with `-EIO`. -/
def Env.reply_fails : Env :=
  { Env.ok with cached_pin := (4, [49, 50, 51, 52], false), pincode_reply := -5 }

/-- Is the call a `device_cancel_bonding`? -/
def is_cancel_bonding (c : Call) : Bool :=
  match c with
  | Call.device_cancel_bonding _ _ => true
  | _ => false

/-- A registry with controller 1 and no device record. -/
def Registry.no_device : Registry := { adapters := [1], devices := [] }

/-- A registry with controller 1 and one known peer 2, which is temporary and has no
bonding session. -/
def Registry.idle_temporary : Registry :=
  { adapters := [1], devices := [(1, Device.fresh 2)] }

/-- The names handed to `g_key_file_set_string` by a list of calls. -/
def stored_names (calls : List Call) : List (List Nat) :=
  calls.filterMap (fun c =>
    match c with
    | Call.g_key_file_set_string _ _ v => some v
    | _ => none)

/-- The names handed to `device_set_name` by a list of calls. -/
def device_names (calls : List Call) : List (List Nat) :=
  calls.filterMap (fun c =>
    match c with
    | Call.device_set_name _ v => some v
    | _ => none)

/-- Is the byte a printable ASCII character, 0x20 to 0x7e? -/
def printable (b : Nat) : Prop := 0x20 ≤ b ∧ b ≤ 0x7e

/-! ## Helper lemmas for the codec -/

theorem fmt_2_2x_byte (v : Nat) (h : v < 256) : fmt_2_2x v = hex2 v := by
  interval_cases v <;> rfl

theorem digitChar_eq_hexchars (d : Nat) (h : d < 16) :
    hexchars[d]? = some (Nat.digitChar d) := by
  interval_cases d <;> rfl

theorem digitChar_mem_hexchars (d : Nat) (h : d < 16) : Nat.digitChar d ∈ hexchars := by
  interval_cases d <;> decide

theorem digitChar_ne_NUL (d : Nat) (h : d < 16) : Nat.digitChar d ≠ NUL := by
  interval_cases d <;> decide

theorem digitChar_inj16 (a b : Nat) (ha : a < 16) (hb : b < 16)
    (h : Nat.digitChar a = Nat.digitChar b) : a = b := by
  interval_cases a <;> interval_cases b <;> first | rfl | (exact absurd h (by decide))

theorem poke_append (cs : List Char) : ∀ (H R : List Char), cs.length ≤ R.length →
    poke (H ++ R) H.length cs = H ++ cs ++ R.drop cs.length := by
  induction cs with
  | nil => intro H R _; simp [poke]
  | cons c cs ih =>
    intro H R hlen
    cases R with
    | nil => simp at hlen
    | cons r R =>
      have hset : (H ++ r :: R).set H.length c = (H ++ [c]) ++ R := by
        simp [List.set_append]
      have hl : (H ++ [c]).length = H.length + 1 := by simp
      simp only [poke, hset]
      rw [← hl, ih (H ++ [c]) R (by simpa using hlen)]
      simp

theorem hexs_length (data : List Nat) : (hexs data).length = 2 * data.length := by
  induction data with
  | nil => rfl
  | cons a t ih => simp [hexs, hex2, List.flatMap_cons] at ih ⊢; omega

theorem hexs_append (a b : List Nat) : hexs (a ++ b) = hexs a ++ hexs b := by
  simp [hexs]

theorem hexs_ne_NUL (data : List Nat) (hb : ∀ b ∈ data, b < 256) :
    ∀ c ∈ hexs data, c ≠ NUL := by
  intro c hc
  simp only [hexs, List.mem_flatMap, hex2, List.mem_cons, List.mem_singleton] at hc
  obtain ⟨b, hbm, hc⟩ := hc
  have h := hb b hbm
  rcases hc with rfl | hc
  · exact digitChar_ne_NUL _ (by omega)
  · rcases hc with rfl | hc
    · exact digitChar_ne_NUL _ (by omega)
    · simp at hc

theorem buf2str_loop_inv (data : List Nat) (n : Nat) (hlen : data.length = n)
    (hb : ∀ b ∈ data, b < 256) : ∀ k, k ≤ n →
    (List.range k).foldl (fun b i => sprintf_2_2x b (i * 2) (data.getD i 0))
        (List.replicate (n * 2 + 1) NUL)
      = hexs (data.take k) ++ List.replicate ((n - k) * 2 + 1) NUL := by
  intro k
  induction k with
  | zero => intro _; simp [hexs]
  | succ k ih =>
    intro hk
    have hkl : k < data.length := by omega
    rw [List.range_succ, List.foldl_append, ih (by omega)]
    have hget : data.getD k 0 = data[k] := by
      simp [List.getD_eq_getElem?_getD, List.getElem?_eq_getElem hkl]
    have hbk : data[k] < 256 := hb _ (List.getElem_mem hkl)
    have hH : (hexs (data.take k)).length = k * 2 := by
      rw [hexs_length, List.length_take]; omega
    have hR : (n - k) * 2 + 1 = ((n - (k + 1)) * 2 + 1) + 2 := by omega
    simp only [List.foldl_cons, List.foldl_nil, sprintf_2_2x, hget, fmt_2_2x_byte _ hbk]
    rw [← hH, poke_append _ _ _ (by simp [hex2]; omega)]
    rw [List.take_succ, List.getElem?_eq_getElem hkl, hexs_append]
    rw [hR]
    simp [hexs, hex2, List.replicate_succ]

theorem cstr_append_NUL (s t : List Char) (h : ∀ c ∈ s, c ≠ NUL) :
    cstr (s ++ NUL :: t) = s := by
  induction s with
  | nil => simp [cstr]
  | cons a s ih =>
    have ha : a ≠ NUL := h a (by simp)
    have := ih (fun c hc => h c (by simp [hc]))
    simp only [cstr] at this ⊢
    simp [List.takeWhile_cons, ha, this]

/-- With a buffer, `buf2str` returns the two digits of every byte, in order. -/
theorem buf2str_eq_hexs (data : List Nat) (n : Nat) (hlen : data.length = n)
    (hb : ∀ b ∈ data, b < 256) : buf2str true data n = some (hexs data) := by
  simp only [buf2str, if_true]
  rw [buf2str_loop_inv data n hlen hb n (le_refl n)]
  have : data.take n = data := by rw [← hlen]; exact List.take_length data
  rw [this]
  simp only [Nat.sub_self, Nat.zero_mul, Nat.zero_add, List.replicate_one]
  rw [cstr_append_NUL _ _ (hexs_ne_NUL data hb)]

theorem hexs_getElem (data : List Nat) : ∀ (i b : Nat), data[i]? = some b →
    (hexs data)[2 * i]? = some (Nat.digitChar (b / 16)) ∧
    (hexs data)[2 * i + 1]? = some (Nat.digitChar (b % 16)) := by
  induction data with
  | nil => intro i b h; simp at h
  | cons a t ih =>
    intro i b h
    cases i with
    | zero =>
      simp at h
      subst h
      simp [hexs, hex2]
    | succ i =>
      simp at h
      have := ih i b h
      have e : hexs (a :: t) = Nat.digitChar (a / 16) :: Nat.digitChar (a % 16) :: hexs t := by
        simp [hexs, hex2]
      rw [e]
      have e1 : 2 * (i + 1) = (2 * i) + 1 + 1 := by omega
      have e2 : 2 * (i + 1) + 1 = (2 * i + 1) + 1 + 1 := by omega
      rw [e1]
      simpa using this

theorem hexs_mem_hexchars (data : List Nat) (hb : ∀ b ∈ data, b < 256) :
    ∀ c ∈ hexs data, c ∈ hexchars := by
  intro c hc
  simp only [hexs, List.mem_flatMap, hex2, List.mem_cons, List.mem_singleton] at hc
  obtain ⟨b, hbm, hc⟩ := hc
  have h := hb b hbm
  rcases hc with rfl | hc
  · exact digitChar_mem_hexchars _ (by omega)
  · rcases hc with rfl | hc
    · exact digitChar_mem_hexchars _ (by omega)
    · simp at hc

/-- C3: for a buffer `data` of `n` bytes, when the allocation succeeds `buf2str`
returns a string of exactly `2 * n` characters, all of them among `0-9a-f`, whose
characters `2 * i` and `2 * i + 1` are the high and the low hexadecimal digit of
`data[i]`. -/
theorem buf2str_spec (data : List Nat) (n : Nat) (hlen : data.length = n)
    (hb : ∀ b ∈ data, b < 256) :
    ∃ s, buf2str true data n = some s ∧ s.length = 2 * n ∧ (∀ c ∈ s, c ∈ hexchars) ∧
      ∀ i b, data[i]? = some b →
        s[2 * i]? = hexchars[b / 16]? ∧ s[2 * i + 1]? = hexchars[b % 16]? := by
  refine ⟨hexs data, buf2str_eq_hexs data n hlen hb, ?_, hexs_mem_hexchars data hb, ?_⟩
  · rw [hexs_length, hlen]
  · intro i b hi
    have hlt : b < 256 := hb b (by
      obtain ⟨h1, h2⟩ := List.getElem?_eq_some_iff.mp hi
      exact h2 ▸ List.getElem_mem h1)
    rw [digitChar_eq_hexchars _ (by omega), digitChar_eq_hexchars _ (by omega)]
    exact hexs_getElem data i b hi

/-- Witness of C3: a buffer of three bytes. -/
theorem buf2str_spec_witness :
    [0, 171, 255].length = 3 ∧ ∃ s, buf2str true [0, 171, 255] 3 = some s ∧
      s.length = 2 * 3 ∧ (∀ c ∈ s, c ∈ hexchars) ∧
      ∀ i b, [0, 171, 255][i]? = some b →
        s[2 * i]? = hexchars[b / 16]? ∧ s[2 * i + 1]? = hexchars[b % 16]? :=
  ⟨rfl, buf2str_spec [0, 171, 255] 3 rfl (by decide)⟩

theorem digitVal_digitChar (k : Nat) (h : k < 10) : digitVal (Nat.digitChar k) = k := by
  interval_cases k <;> rfl

theorem digitChar_ne_space (k : Nat) (h : k < 10) : Nat.digitChar k ≠ ' ' := by
  interval_cases k <;> decide

theorem toDigitsCore_foldl : ∀ (fuel n : Nat) (ds : List Char), n < fuel →
    (Nat.toDigitsCore 10 fuel n ds).foldl (fun acc c => 10 * acc + digitVal c) 0
      = ds.foldl (fun acc c => 10 * acc + digitVal c) n := by
  intro fuel
  induction fuel with
  | zero => intro n ds h; omega
  | succ f ih =>
    intro n ds h
    have hd : digitVal (Nat.digitChar (n % 10)) = n % 10 :=
      digitVal_digitChar _ (Nat.mod_lt _ (by norm_num))
    simp only [Nat.toDigitsCore]
    split
    · rename_i h0
      have : n < 10 := by omega
      rw [Nat.mod_eq_of_lt this] at hd
      simp [List.foldl_cons, hd, Nat.mod_eq_of_lt this]
    · rename_i h0
      rw [ih (n / 10) _ (by omega)]
      simp only [List.foldl_cons, hd]
      congr 1
      omega

/-- Reading the numeral printed by `%d` gives the number back. -/
theorem ofDec_fmt_d (n : Nat) : ofDec (fmt_d n) = n := by
  simp only [ofDec, fmt_d, Nat.toDigits]
  rw [toDigitsCore_foldl (n + 1) n [] (by omega)]
  simp

theorem fmt_d_inj (a b : Nat) (h : fmt_d a = fmt_d b) : a = b := by
  have := congrArg ofDec h
  simpa [ofDec_fmt_d] using this

theorem toDigitsCore_no_space : ∀ (fuel n : Nat) (ds : List Char), (∀ c ∈ ds, c ≠ ' ') →
    ∀ c ∈ Nat.toDigitsCore 10 fuel n ds, c ≠ ' ' := by
  intro fuel
  induction fuel with
  | zero => intro n ds h; simpa [Nat.toDigitsCore] using h
  | succ f ih =>
    intro n ds h
    have hd : Nat.digitChar (n % 10) ≠ ' ' :=
      digitChar_ne_space _ (Nat.mod_lt _ (by norm_num))
    have hcons : ∀ c ∈ Nat.digitChar (n % 10) :: ds, c ≠ ' ' := by
      intro c hc
      rcases List.mem_cons.mp hc with rfl | hc
      · exact hd
      · exact h c hc
    simp only [Nat.toDigitsCore]
    split
    · exact hcons
    · exact ih _ _ hcons

theorem fmt_d_no_space (n : Nat) : ' ' ∉ fmt_d n := by
  intro h
  exact toDigitsCore_no_space (n + 1) n [] (by simp) ' ' h rfl

theorem hexs_no_space (data : List Nat) (hb : ∀ b ∈ data, b < 256) : ' ' ∉ hexs data := by
  intro h
  have := hexs_mem_hexchars data hb ' ' h
  revert this
  decide

theorem hex2_inj (a b : Nat) (ha : a < 256) (hb : b < 256) (h : hex2 a = hex2 b) : a = b := by
  simp only [hex2, List.cons.injEq, and_true] at h
  have h1 := digitChar_inj16 _ _ (by omega) (by omega) h.1
  have h2 := digitChar_inj16 _ _ (Nat.mod_lt _ (by norm_num)) (Nat.mod_lt _ (by norm_num)) h.2
  omega

theorem hexs_inj : ∀ (x y : List Nat), x.length = y.length → (∀ b ∈ x, b < 256) →
    (∀ b ∈ y, b < 256) → hexs x = hexs y → x = y := by
  intro x
  induction x with
  | nil =>
    intro y hl _ _ _
    cases y with
    | nil => rfl
    | cons b y => simp at hl
  | cons a x ih =>
    intro y hl hx hy h
    cases y with
    | nil => simp at hl
    | cons b y =>
      have e1 : hexs (a :: x) = hex2 a ++ hexs x := by simp [hexs]
      have e2 : hexs (b :: y) = hex2 b ++ hexs y := by simp [hexs]
      rw [e1, e2] at h
      have hh := List.append_inj h (by simp [hex2])
      have hab := hex2_inj a b (hx a (by simp)) (hy b (by simp)) hh.1
      have hxy := ih y (by simpa using hl) (fun c hc => hx c (by simp [hc]))
        (fun c hc => hy c (by simp [hc])) hh.2
      rw [hab, hxy]

/-- A field that holds no space ends at the first space. -/
theorem field_split : ∀ (a b r s : List Char), ' ' ∉ a → ' ' ∉ b →
    a ++ ' ' :: r = b ++ ' ' :: s → a = b ∧ r = s := by
  intro a
  induction a with
  | nil =>
    intro b r s _ hb h
    cases b with
    | nil => simpa using h
    | cons c b =>
      simp only [List.nil_append, List.cons_append, List.cons.injEq] at h
      exact absurd (List.mem_cons.mpr (Or.inl h.1)) hb
  | cons x a ih =>
    intro b r s ha hb h
    cases b with
    | nil =>
      simp only [List.nil_append, List.cons_append, List.cons.injEq] at h
      exact absurd (List.mem_cons.mpr (Or.inl h.1.symm)) ha
    | cons c b =>
      simp only [List.cons_append, List.cons.injEq] at h
      have := ih b r s (fun hm => ha (by simp [hm])) (fun hm => hb (by simp [hm])) h.2
      exact ⟨by rw [h.1, this.1], this.2⟩

/-- The text `store_longtermkey` hands to `write_longtermkeys` for a well-formed
tuple, when both allocations succeed. -/
theorem store_calls_texts (env : Env) (reg : Registry) (l p ty : Nat) (t : LeTuple)
    (hwf : t.wf) (hk : env.alloc_key = true) (hr : env.alloc_rand = true) :
    longtermkey_texts (store_calls env reg l p ty t) =
      [hexs t.key ++ ' ' :: (fmt_d t.authenticated ++ ' ' :: (fmt_d t.master ++ ' ' ::
        (fmt_d t.enc_size ++ ' ' :: (fmt_d t.ediv ++ ' ' :: hexs t.rand))))] := by
  obtain ⟨h1, h2, _, _, _, _, h7, h8⟩ := hwf
  simp [store_calls, store_longtermkey, hk, hr, buf2str_eq_hexs _ _ h1 h2,
    buf2str_eq_hexs _ _ h7 h8, write_longtermkeys, World.call, World.init, longtermkey_texts]

/-- Without a buffer nothing is handed to `write_longtermkeys`. -/
theorem store_calls_texts_cases (env : Env) (reg : Registry) (l p ty : Nat) (t : LeTuple)
    (hwf : t.wf) (text : List Char)
    (h : text ∈ longtermkey_texts (store_calls env reg l p ty t)) :
    text = hexs t.key ++ ' ' :: (fmt_d t.authenticated ++ ' ' :: (fmt_d t.master ++ ' ' ::
        (fmt_d t.enc_size ++ ' ' :: (fmt_d t.ediv ++ ' ' :: hexs t.rand)))) := by
  cases hk : env.alloc_key with
  | false =>
    simp [store_calls, store_longtermkey, hk, buf2str, World.init, longtermkey_texts] at h
  | true =>
    cases hr : env.alloc_rand with
    | false =>
      obtain ⟨h1, h2, _⟩ := hwf
      simp [store_calls, store_longtermkey, hk, hr, buf2str_eq_hexs _ _ h1 h2, buf2str,
        World.init, longtermkey_texts] at h
    | true =>
      rw [store_calls_texts env reg l p ty t hwf hk hr] at h
      simpa using h

/-- C1: the LE encoding of `store_longtermkey` is injective: two well-formed tuples
for which the same text is handed to `write_longtermkeys` are equal field by field. -/
theorem store_longtermkey_injective (env1 env2 : Env) (reg1 reg2 : Registry)
    (l1 p1 ty1 l2 p2 ty2 : Nat) (t1 t2 : LeTuple) (text : List Char)
    (hwf1 : t1.wf) (hwf2 : t2.wf)
    (e1 : text ∈ longtermkey_texts (store_calls env1 reg1 l1 p1 ty1 t1))
    (e2 : text ∈ longtermkey_texts (store_calls env2 reg2 l2 p2 ty2 t2)) :
    t1 = t2 := by
  have f1 := store_calls_texts_cases env1 reg1 l1 p1 ty1 t1 hwf1 text e1
  have f2 := store_calls_texts_cases env2 reg2 l2 p2 ty2 t2 hwf2 text e2
  rw [f1] at f2
  obtain ⟨a1, a2, _, _, _, _, a7, a8⟩ := hwf1
  obtain ⟨b1, b2, _, _, _, _, b7, b8⟩ := hwf2
  have hk := List.append_inj f2 (by rw [hexs_length, hexs_length, a1, b1])
  have s1 := field_split _ _ _ _ (fmt_d_no_space _) (fmt_d_no_space _) (List.cons.inj hk.2).2
  have s2 := field_split _ _ _ _ (fmt_d_no_space _) (fmt_d_no_space _) s1.2
  have s3 := field_split _ _ _ _ (fmt_d_no_space _) (fmt_d_no_space _) s2.2
  have s4 := field_split _ _ _ _ (fmt_d_no_space _) (fmt_d_no_space _) s3.2
  have k := hexs_inj _ _ (by rw [a1, b1]) a2 b2 hk.1
  have r := hexs_inj _ _ (by rw [a7, b7]) a8 b8 s4.2
  have ha := fmt_d_inj _ _ s1.1
  have hm := fmt_d_inj _ _ s2.1
  have he := fmt_d_inj _ _ s3.1
  have hd := fmt_d_inj _ _ s4.1
  cases t1
  cases t2
  simp_all

theorem LeTuple.sample_wf : LeTuple.sample.wf := by
  simp only [LeTuple.wf, LeTuple.sample]
  decide

theorem fmt_d_ne_nil (n : Nat) : fmt_d n ≠ [] := by
  intro h
  have h1 : ofDec (fmt_d n) = n := ofDec_fmt_d n
  have h2 : ofDec (fmt_d (n + 1)) = n + 1 := ofDec_fmt_d (n + 1)
  rw [h] at h1
  have hn : n = 0 := by simpa [ofDec] using h1.symm
  subst hn
  revert h
  decide

/-- Witness of C1: the sample tuple and its text. -/
theorem store_longtermkey_injective_witness :
    LeTuple.sample.wf ∧
    "000102030405060708090a0b0c0d0eff 0 1 16 4660 0123456789abcdef".toList ∈
      longtermkey_texts (store_calls Env.ok ⟨[], []⟩ 1 2 0 LeTuple.sample) ∧
    LeTuple.sample = LeTuple.sample :=
  ⟨LeTuple.sample_wf, by decide,
    store_longtermkey_injective Env.ok Env.ok ⟨[], []⟩ ⟨[], []⟩ 1 2 0 1 2 0 LeTuple.sample
      LeTuple.sample
      "000102030405060708090a0b0c0d0eff 0 1 16 4660 0123456789abcdef".toList
      LeTuple.sample_wf LeTuple.sample_wf (by decide) (by decide)⟩

/-- C2, as stated, fails: for the tuple with `master = 1` and `authenticated = 0` the text
handed to `write_longtermkeys` carries the authenticated flag in its second field and
the master flag in its third, so it is not the text with the fields in the order key,
is-master, authenticated, key size, EDIV, random value. -/
theorem store_longtermkey_order_counterexample :
    longtermkey_texts (store_calls Env.ok ⟨[], []⟩ 1 2 0 LeTuple.sample) =
      ["000102030405060708090a0b0c0d0eff 0 1 16 4660 0123456789abcdef".toList] ∧
    [' '].intercalate (le_fields_spec_order LeTuple.sample) =
      "000102030405060708090a0b0c0d0eff 1 0 16 4660 0123456789abcdef".toList ∧
    ¬ (∀ text ∈ longtermkey_texts (store_calls Env.ok ⟨[], []⟩ 1 2 0 LeTuple.sample),
        text = [' '].intercalate (le_fields_spec_order LeTuple.sample)) := by
  decide

/-- C2 (amended): for every well-formed LE tuple the text `store_longtermkey` builds
consists of exactly six non-empty fields separated by single spaces, in the order key
(32 hexadecimal characters), authenticated flag, is-master flag, encryption key size,
EDIV, random value (16 hexadecimal characters); the text is built whenever both
allocations succeed. -/
theorem store_longtermkey_fields (env : Env) (reg : Registry) (l p ty : Nat) (t : LeTuple)
    (hwf : t.wf) :
    (env.alloc_key = true → env.alloc_rand = true →
      ∃ text, longtermkey_texts (store_calls env reg l p ty t) = [text]) ∧
    (∀ text ∈ longtermkey_texts (store_calls env reg l p ty t),
      text = [' '].intercalate (le_fields t) ∧ text.splitOn ' ' = le_fields t) ∧
    (∀ f ∈ le_fields t, f ≠ [] ∧ ' ' ∉ f) ∧
    (hexs t.key).length = 32 ∧ (∀ c ∈ hexs t.key, c ∈ hexchars) ∧
    (hexs t.rand).length = 16 ∧ (∀ c ∈ hexs t.rand, c ∈ hexchars) ∧
    ofDec (fmt_d t.authenticated) = t.authenticated ∧ ofDec (fmt_d t.master) = t.master ∧
    ofDec (fmt_d t.enc_size) = t.enc_size ∧ ofDec (fmt_d t.ediv) = t.ediv := by
  have hwf0 := hwf
  obtain ⟨h1, h2, _, _, _, _, h7, h8⟩ := hwf
  have hkl : (hexs t.key).length = 32 := by rw [hexs_length, h1]
  have hrl : (hexs t.rand).length = 16 := by rw [hexs_length, h7]
  have hsp : ∀ f ∈ le_fields t, ' ' ∉ f := by
    intro f hf
    simp only [le_fields, List.mem_cons, List.mem_singleton, List.not_mem_nil, or_false] at hf
    rcases hf with rfl | rfl | rfl | rfl | rfl | rfl
    · exact hexs_no_space _ h2
    · exact fmt_d_no_space _
    · exact fmt_d_no_space _
    · exact fmt_d_no_space _
    · exact fmt_d_no_space _
    · exact hexs_no_space _ h8
  have hne : ∀ f ∈ le_fields t, f ≠ [] := by
    intro f hf
    simp only [le_fields, List.mem_cons, List.mem_singleton, List.not_mem_nil, or_false] at hf
    rcases hf with rfl | rfl | rfl | rfl | rfl | rfl
    · intro h; rw [h] at hkl; simp at hkl
    · exact fmt_d_ne_nil _
    · exact fmt_d_ne_nil _
    · exact fmt_d_ne_nil _
    · exact fmt_d_ne_nil _
    · intro h; rw [h] at hrl; simp at hrl
  have hint : hexs t.key ++ ' ' :: (fmt_d t.authenticated ++ ' ' :: (fmt_d t.master ++ ' ' ::
        (fmt_d t.enc_size ++ ' ' :: (fmt_d t.ediv ++ ' ' :: hexs t.rand))))
      = [' '].intercalate (le_fields t) := by
    simp [le_fields, List.intercalate, List.intersperse]
  refine ⟨?_, ?_, fun f hf => ⟨hne f hf, hsp f hf⟩, hkl, hexs_mem_hexchars _ h2, hrl,
    hexs_mem_hexchars _ h8, ofDec_fmt_d _, ofDec_fmt_d _, ofDec_fmt_d _, ofDec_fmt_d _⟩
  · intro hk hr
    exact ⟨_, store_calls_texts env reg l p ty t hwf0 hk hr⟩
  · intro text htext
    have := store_calls_texts_cases env reg l p ty t hwf0 text htext
    rw [hint] at this
    refine ⟨this, ?_⟩
    rw [this]
    exact List.splitOn_intercalate _ ' ' hsp (by simp [le_fields])

/-- Witness of C2 (amended): the sample tuple. -/
theorem store_longtermkey_fields_witness :
    LeTuple.sample.wf ∧
    ((Env.ok.alloc_key = true → Env.ok.alloc_rand = true →
      ∃ text, longtermkey_texts (store_calls Env.ok ⟨[], []⟩ 1 2 0 LeTuple.sample) = [text]) ∧
    (∀ text ∈ longtermkey_texts (store_calls Env.ok ⟨[], []⟩ 1 2 0 LeTuple.sample),
      text = [' '].intercalate (le_fields LeTuple.sample) ∧
      text.splitOn ' ' = le_fields LeTuple.sample) ∧
    (∀ f ∈ le_fields LeTuple.sample, f ≠ [] ∧ ' ' ∉ f) ∧
    (hexs LeTuple.sample.key).length = 32 ∧ (∀ c ∈ hexs LeTuple.sample.key, c ∈ hexchars) ∧
    (hexs LeTuple.sample.rand).length = 16 ∧
    (∀ c ∈ hexs LeTuple.sample.rand, c ∈ hexchars) ∧
    ofDec (fmt_d LeTuple.sample.authenticated) = LeTuple.sample.authenticated ∧
    ofDec (fmt_d LeTuple.sample.master) = LeTuple.sample.master ∧
    ofDec (fmt_d LeTuple.sample.enc_size) = LeTuple.sample.enc_size ∧
    ofDec (fmt_d LeTuple.sample.ediv) = LeTuple.sample.ediv) :=
  ⟨LeTuple.sample_wf, store_longtermkey_fields Env.ok ⟨[], []⟩ 1 2 0 LeTuple.sample
    LeTuple.sample_wf⟩

/-! ## The resolver -/

theorem find_append_fresh (reg : Registry) (a peer : Nat)
    (h : reg.find ⟨a, peer⟩ = none) :
    Registry.find { reg with devices := reg.devices ++ [(a, Device.fresh peer)] } ⟨a, peer⟩
      = some (Device.fresh peer) := by
  simp only [Registry.find, Option.map_eq_none', Option.map_eq_some'] at h ⊢
  refine ⟨(a, Device.fresh peer), ?_, rfl⟩
  rw [List.find?_append, h]
  simp [DevRef.owns, Device.fresh]

/-- What a successful resolution with creation allowed returns. -/
theorem gad_create (env : Env) (w w1 : World) (src dst a : Nat) (p : DevPtr)
    (h : get_adapter_and_device env w src dst true = (some (a, p), w1)) :
    src ∈ w.reg.adapters ∧ a = src ∧ p = some ⟨src, dst⟩ ∧ w1.calls = w.calls ∧
      (w1.reg.find ⟨src, dst⟩).isSome = true ∧ w1.reg.adapters = w.reg.adapters := by
  by_cases hmem : src ∈ w.reg.adapters
  · cases hfind : w.reg.find ⟨src, dst⟩ with
    | none =>
      cases hc : env.create_ok with
      | false =>
        simp [get_adapter_and_device, manager_find_adapter, adapter_get_device,
          adapter_find_device, hmem, hfind, hc] at h
      | true =>
        simp [get_adapter_and_device, manager_find_adapter, adapter_get_device,
          adapter_find_device, hmem, hfind, hc] at h
        obtain ⟨⟨rfl, rfl⟩, rfl⟩ := h
        refine ⟨hmem, rfl, rfl, rfl, ?_, rfl⟩
        simp [find_append_fresh w.reg _ dst hfind]
    | some r =>
      simp [get_adapter_and_device, manager_find_adapter, adapter_get_device,
        adapter_find_device, hmem, hfind] at h
      obtain ⟨⟨rfl, rfl⟩, rfl⟩ := h
      exact ⟨hmem, rfl, rfl, rfl, by simp [hfind], rfl⟩
  · simp [get_adapter_and_device, manager_find_adapter, hmem] at h

/-- Resolution without creation, for a known controller. -/
theorem gad_find (env : Env) (w : World) (src dst : Nat) (hmem : src ∈ w.reg.adapters) :
    get_adapter_and_device env w src dst false
      = (some (src, adapter_find_device w src dst), w) := by
  simp [get_adapter_and_device, manager_find_adapter, hmem]

/-! ## PIN requests -/

/-- C4: once adapter and device are resolved, `btd_event_request_pin` replies directly
with the cached PIN exactly when `pinlen > 0`, (`secure` is false or `pinlen = 16`) and
not (`display` and bonding); it notifies the agent for display exactly when
`pinlen > 0`, (`secure` is false or `pinlen = 16`), `display` and bonding; otherwise it
starts agent-driven PIN entry.  A secure request with a cached PIN of length 4 falls
through to PIN entry. -/
theorem request_pin_method (env : Env) (reg : Registry) (sba dba : Nat) (secure : Bool)
    (adapter : Nat) (dev : DevRef) (w1 : World)
    (hres : get_adapter_and_device env (World.init reg) sba dba true
      = (some (adapter, some dev), w1)) :
    ((0 < env.cached_pin.1 ∧ (secure = false ∨ env.cached_pin.1 = 16) ∧
        ¬ (env.cached_pin.2.2 = true ∧ (device_is_bonding w1 (some dev)).1 = true)) ↔
      (btd_event_request_pin env (World.init reg) sba dba secure).2.calls.filter is_pin_method
        = [Call.btd_adapter_pincode_reply adapter dba (some env.cached_pin.2.1)
            env.cached_pin.1.toNat]) ∧
    ((0 < env.cached_pin.1 ∧ (secure = false ∨ env.cached_pin.1 = 16) ∧
        (env.cached_pin.2.2 = true ∧ (device_is_bonding w1 (some dev)).1 = true)) ↔
      (btd_event_request_pin env (World.init reg) sba dba secure).2.calls.filter is_pin_method
        = [Call.device_notify_pincode (some dev) secure env.cached_pin.2.1]) ∧
    (¬ (0 < env.cached_pin.1 ∧ (secure = false ∨ env.cached_pin.1 = 16)) ↔
      (btd_event_request_pin env (World.init reg) sba dba secure).2.calls.filter is_pin_method
        = [Call.device_request_pincode (some dev) secure]) ∧
    (secure = true → env.cached_pin.1 = 4 →
      (btd_event_request_pin env (World.init reg) sba dba secure).2.calls.filter is_pin_method
        = [Call.device_request_pincode (some dev) secure]) := by
  have hcalls : w1.calls = [] := (gad_create _ _ _ _ _ _ _ hres).2.2.2.1
  have key : (btd_event_request_pin env (World.init reg) sba dba secure).2.calls.filter
      is_pin_method =
      if 0 < env.cached_pin.1 ∧ (secure = false ∨ env.cached_pin.1 = 16) then
        if env.cached_pin.2.2 = true ∧ (device_is_bonding w1 (some dev)).1 = true then
          [Call.device_notify_pincode (some dev) secure env.cached_pin.2.1]
        else
          [Call.btd_adapter_pincode_reply adapter dba (some env.cached_pin.2.1)
            env.cached_pin.1.toNat]
      else [Call.device_request_pincode (some dev) secure] := by
    simp only [btd_event_request_pin, hres, btd_adapter_get_pin]
    by_cases hu : 0 < env.cached_pin.1 ∧ (secure = false ∨ env.cached_pin.1 = 16)
    · simp only [hu, if_true]
      cases hd : env.cached_pin.2.2 <;>
        cases hb : (device_is_bonding w1 (some dev)).1 <;>
        simp_all [device_is_bonding, device_notify_pincode, btd_adapter_pincode_reply,
          World.call, is_pin_method, Registry.deref]
    · simp only [hu, if_false]
      simp [device_request_pincode, World.call, hcalls, is_pin_method]
  rw [key]
  refine ⟨?_, ?_, ?_, ?_⟩
  · by_cases hu : 0 < env.cached_pin.1 ∧ (secure = false ∨ env.cached_pin.1 = 16) <;>
      by_cases hd : env.cached_pin.2.2 = true ∧ (device_is_bonding w1 (some dev)).1 = true <;>
      simp [hu, hd]
  · by_cases hu : 0 < env.cached_pin.1 ∧ (secure = false ∨ env.cached_pin.1 = 16) <;>
      by_cases hd : env.cached_pin.2.2 = true ∧ (device_is_bonding w1 (some dev)).1 = true <;>
      simp [hu, hd]
  · by_cases hu : 0 < env.cached_pin.1 ∧ (secure = false ∨ env.cached_pin.1 = 16) <;>
      by_cases hd : env.cached_pin.2.2 = true ∧ (device_is_bonding w1 (some dev)).1 = true <;>
      simp [hu, hd]
  · intro hs h4
    simp [hs, h4]

/-- Witness of C4: a secure request with the cached PIN 1234 for a known peer. -/
theorem request_pin_method_witness :
    get_adapter_and_device Env.reply_fails (World.init Registry.sample) 1 2 true
        = (some (1, some ⟨1, 2⟩), World.init Registry.sample) ∧
    (btd_event_request_pin Env.reply_fails (World.init Registry.sample) 1 2 true).2.calls.filter
        is_pin_method = [Call.device_request_pincode (some ⟨1, 2⟩) true] :=
  ⟨by decide,
    (request_pin_method Env.reply_fails Registry.sample 1 2 true 1 ⟨1, 2⟩
      (World.init Registry.sample) (by decide)).2.2.2 rfl (by decide)⟩

/-- C9, as stated, fails: with the cached PIN 1234, no display flag and a non-secure
request the handler takes the direct reply path; the controller reply returns the
negative status -5 and `btd_event_request_pin` still returns 0. -/
theorem request_pin_reply_status_counterexample :
    Env.reply_fails.pincode_reply < 0 ∧
    btd_event_request_pin Env.reply_fails (World.init Registry.sample) 1 2 false
      = (0, { reg := Registry.sample,
              calls := [Call.btd_adapter_get_pin 1 (some ⟨1, 2⟩),
                Call.btd_adapter_pincode_reply 1 2 (some [49, 50, 51, 52]) 4] }) ∧
    ¬ ((btd_event_request_pin Env.reply_fails (World.init Registry.sample) 1 2 false).1 < 0) := by
  decide

/-- C9 (amended): on the direct cached-PIN reply path (cached PIN length > 0, length
constraint satisfied, no display notification) `btd_event_request_pin` sends the
controller exactly one PIN reply, with the cached PIN and its length, and returns 0
whatever status `btd_adapter_pincode_reply` returns: the status is not surfaced. -/
theorem request_pin_direct_returns_zero (env : Env) (reg : Registry) (sba dba : Nat)
    (secure : Bool) (adapter : Nat) (dev : DevRef) (w1 : World)
    (hres : get_adapter_and_device env (World.init reg) sba dba true
      = (some (adapter, some dev), w1))
    (hu : 0 < env.cached_pin.1 ∧ (secure = false ∨ env.cached_pin.1 = 16))
    (hd : ¬ (env.cached_pin.2.2 = true ∧ (device_is_bonding w1 (some dev)).1 = true)) :
    (btd_event_request_pin env (World.init reg) sba dba secure).1 = 0 ∧
    (btd_event_request_pin env (World.init reg) sba dba secure).2.calls.filter is_reply
      = [Call.btd_adapter_pincode_reply adapter dba (some env.cached_pin.2.1)
          env.cached_pin.1.toNat] := by
  have hcalls : w1.calls = [] := (gad_create _ _ _ _ _ _ _ hres).2.2.2.1
  simp only [btd_event_request_pin, hres, btd_adapter_get_pin, hu, if_true]
  cases hdisp : env.cached_pin.2.2 <;>
    cases hb : (device_is_bonding w1 (some dev)).1 <;>
    simp_all [device_is_bonding, device_notify_pincode, btd_adapter_pincode_reply,
      World.call, is_reply, Registry.deref]

/-- Witness of C9 (amended): a non-secure request with the cached PIN 1234. -/
theorem request_pin_direct_returns_zero_witness :
    get_adapter_and_device Env.reply_fails (World.init Registry.sample) 1 2 true
        = (some (1, some ⟨1, 2⟩), World.init Registry.sample) ∧
    (btd_event_request_pin Env.reply_fails (World.init Registry.sample) 1 2 false).1 = 0 ∧
    (btd_event_request_pin Env.reply_fails (World.init Registry.sample) 1 2 false).2.calls.filter
        is_reply = [Call.btd_adapter_pincode_reply 1 2 (some [49, 50, 51, 52]) 4] :=
  ⟨by decide,
    request_pin_direct_returns_zero Env.reply_fails Registry.sample 1 2 false 1 ⟨1, 2⟩
      (World.init Registry.sample) (by decide) (by decide) (by decide)⟩

/-! ## Agent callbacks -/

/-- C8: when the agent reports an error each callback sends the controller exactly one
reply, the reject value of its method, whatever credential came with the error:
`pincode_cb` an absent PIN of length 0, `confirm_cb` `success = FALSE`, `passkey_cb`
`INVALID_PASSKEY`.  Without an error the reply carries the supplied material: the PIN
with its character count as length, `success = TRUE`, the passkey unchanged. -/
theorem agent_callbacks_reply (INVALID_PASSKEY : Nat) (env : Env) (reg : Registry)
    (e : String) (pincode : Option (List Nat)) (pin : List Nat) (passkey : Nat)
    (dev : DevRef) :
    ((pincode_cb env (World.init reg) (some e) pincode dev).calls.filter is_reply
      = [Call.btd_adapter_pincode_reply dev.adapter dev.addr none 0]) ∧
    ((confirm_cb env (World.init reg) (some e) dev).calls.filter is_reply
      = [Call.btd_adapter_confirm_reply dev.adapter dev.addr
          (device_get_addr_type (World.init reg) dev) false]) ∧
    ((passkey_cb INVALID_PASSKEY env (World.init reg) (some e) passkey dev).calls.filter
        is_reply
      = [Call.btd_adapter_passkey_reply dev.adapter dev.addr
          (device_get_addr_type (World.init reg) dev) INVALID_PASSKEY]) ∧
    ((pincode_cb env (World.init reg) none (some pin) dev).calls.filter is_reply
      = [Call.btd_adapter_pincode_reply dev.adapter dev.addr (some pin) pin.length]) ∧
    ((pincode_cb env (World.init reg) none none dev).calls.filter is_reply
      = [Call.btd_adapter_pincode_reply dev.adapter dev.addr none 0]) ∧
    ((confirm_cb env (World.init reg) none dev).calls.filter is_reply
      = [Call.btd_adapter_confirm_reply dev.adapter dev.addr
          (device_get_addr_type (World.init reg) dev) true]) ∧
    ((passkey_cb INVALID_PASSKEY env (World.init reg) none passkey dev).calls.filter
        is_reply
      = [Call.btd_adapter_passkey_reply dev.adapter dev.addr
          (device_get_addr_type (World.init reg) dev) passkey]) := by
  refine ⟨?_, ?_, ?_, ?_, ?_, ?_, ?_⟩
  · simp only [pincode_cb, btd_adapter_pincode_reply]
    split <;> simp [error, World.call, World.init, is_reply, device_get_adapter,
      device_get_address]
  · simp [confirm_cb, confirm_reply, btd_adapter_confirm_reply, World.call, World.init,
      is_reply, device_get_adapter, device_get_address]
  · simp [passkey_cb, btd_adapter_passkey_reply, World.call, World.init,
      is_reply, device_get_adapter, device_get_address]
  · simp only [pincode_cb, btd_adapter_pincode_reply]
    split <;> simp [error, World.call, World.init, is_reply, device_get_adapter,
      device_get_address]
  · simp only [pincode_cb, btd_adapter_pincode_reply]
    split <;> simp [error, World.call, World.init, is_reply, device_get_adapter,
      device_get_address]
  · simp [confirm_cb, confirm_reply, btd_adapter_confirm_reply, World.call, World.init,
      is_reply, device_get_adapter, device_get_address]
  · simp [passkey_cb, btd_adapter_passkey_reply, World.call, World.init,
      is_reply, device_get_adapter, device_get_address]

/-! ## Registry lemmas -/

theorem find_modify (reg : Registry) (d : DevRef) (f : Device → Device)
    (hf : ∀ r, (f r).addr = r.addr) :
    (reg.modify (some d) f).find d = (reg.find d).map f := by
  simp only [Registry.modify, Registry.find]
  induction reg.devices with
  | nil => simp
  | cons e es ih =>
    cases he : d.owns e with
    | true =>
      have : d.owns (e.1, f e.2) = true := by
        simpa [DevRef.owns, hf] using he
      simp [List.find?_cons, he, this]
    | false =>
      rw [List.map_cons, if_neg (by simp [he]), List.find?_cons, he, List.find?_cons, he]
      exact ih

theorem find_remove (reg : Registry) (d : DevRef) : (reg.remove (some d)).find d = none := by
  simp only [Registry.remove, Registry.find, Option.map_eq_none']
  rw [List.find?_eq_none]
  intro e he
  have := (List.mem_filter.mp he).2
  simpa using this

theorem store_longtermkey_reg (env : Env) (w : World) (l p ty : Nat) (key : List Nat)
    (m a e d : Nat) (rand : List Nat) :
    (store_longtermkey env w l p ty key m a e d rand).2.reg = w.reg := by
  simp only [store_longtermkey]
  split
  · rfl
  · split
    · rfl
    · rfl

/-- The registry after `device_set_bonded(device, TRUE)` followed by
`if (device_is_temporary(device)) device_set_temporary(device, FALSE)`. -/
theorem bonded_flags (w : World) (d : DevRef) (h : (w.reg.find d).isSome = true) :
    ∃ r, (if (device_is_temporary (device_set_bonded w (some d) true) (some d)).1 = true then
            device_set_temporary
              (device_is_temporary (device_set_bonded w (some d) true) (some d)).2 (some d) false
          else (device_is_temporary (device_set_bonded w (some d) true) (some d)).2).reg.find d
        = some r ∧ r.bonded = true ∧ r.temporary = false := by
  obtain ⟨r0, hr0⟩ := Option.isSome_iff_exists.mp h
  have h1 : (w.reg.modify (some d) (fun r => { r with bonded := true })).find d
      = some { r0 with bonded := true } := by
    rw [find_modify w.reg d (fun r => { r with bonded := true }) (fun _ => rfl), hr0]; rfl
  cases ht : r0.temporary with
  | false =>
    refine ⟨{ r0 with bonded := true }, ?_, rfl, ht⟩
    simp [device_is_temporary, device_set_bonded, Registry.deref, h1, ht, World.call]
  | true =>
    refine ⟨{ r0 with bonded := true, temporary := false }, ?_, rfl, rfl⟩
    simp only [device_is_temporary, device_set_bonded, Registry.deref, h1, ht, World.call,
      if_true, device_set_temporary]
    rw [find_modify _ d (fun r => { r with temporary := false }) (fun _ => rfl), h1]
    rfl

/-! ## Key notifications -/

/-- C5: for `btd_event_ltk_notify` and `btd_event_link_key_notify`, with an existing
controller and a device that is resolved or created: if persisting the credential
returns 0 the handler returns 0 and the device is then bonded and not temporary,
whatever its temporary flag was; if persisting returns a nonzero error the handler
returns that error and the registry, with the flags of the device, is unchanged. -/
theorem key_notify_flags (env : Env) (reg : Registry) (l p ty : Nat) (key : List Nat)
    (key_type pin_length master authenticated enc_size ediv : Nat) (rand : List Nat)
    (adapter : Nat) (dev : DevRef) (w1 : World)
    (hres : get_adapter_and_device env (World.init reg) l p true
      = (some (adapter, some dev), w1)) :
    ((store_longtermkey env w1 l p ty key master authenticated enc_size ediv rand).1 = 0 →
      (btd_event_ltk_notify env (World.init reg) l p ty key master authenticated enc_size
        ediv rand).1 = 0 ∧
      ∃ r, (btd_event_ltk_notify env (World.init reg) l p ty key master authenticated
          enc_size ediv rand).2.reg.find dev = some r ∧
        r.bonded = true ∧ r.temporary = false) ∧
    ((store_longtermkey env w1 l p ty key master authenticated enc_size ediv rand).1 ≠ 0 →
      (btd_event_ltk_notify env (World.init reg) l p ty key master authenticated enc_size
        ediv rand).1
        = (store_longtermkey env w1 l p ty key master authenticated enc_size ediv rand).1 ∧
      (btd_event_ltk_notify env (World.init reg) l p ty key master authenticated enc_size
        ediv rand).2.reg = w1.reg) ∧
    ((write_link_key env w1 l p (device_get_addr_type w1 dev) key key_type pin_length).1 = 0 →
      (btd_event_link_key_notify env (World.init reg) l p key key_type pin_length).1 = 0 ∧
      ∃ r, (btd_event_link_key_notify env (World.init reg) l p key key_type
          pin_length).2.reg.find dev = some r ∧
        r.bonded = true ∧ r.temporary = false) ∧
    ((write_link_key env w1 l p (device_get_addr_type w1 dev) key key_type pin_length).1 ≠ 0 →
      (btd_event_link_key_notify env (World.init reg) l p key key_type pin_length).1
        = (write_link_key env w1 l p (device_get_addr_type w1 dev) key key_type
            pin_length).1 ∧
      (btd_event_link_key_notify env (World.init reg) l p key key_type pin_length).2.reg
        = w1.reg) := by
  obtain ⟨_, _, hp, _, hsome, _⟩ := gad_create _ _ _ _ _ _ _ hres
  have hd : dev = ⟨l, p⟩ := by simpa using hp
  rw [← hd] at hsome
  refine ⟨?_, ?_, ?_, ?_⟩
  · intro h0
    simp only [btd_event_ltk_notify, hres, h0, if_true, true_and]
    apply bonded_flags
    rw [store_longtermkey_reg]
    exact hsome
  · intro h0
    simp only [btd_event_ltk_notify, hres, h0, if_false, true_and]
    exact store_longtermkey_reg _ _ _ _ _ _ _ _ _ _ _
  · intro h0
    simp only [btd_event_link_key_notify, hres, h0, if_true, true_and]
    apply bonded_flags
    simpa [write_link_key, World.call] using hsome
  · intro h0
    simp only [btd_event_link_key_notify, hres, h0, if_false, true_and]
    simp [write_link_key, World.call]
/-- Witness of C5: a long-term key for a known temporary peer, stored with status 0. -/
theorem key_notify_flags_witness :
    get_adapter_and_device Env.ok (World.init Registry.sample) 1 2 true
        = (some (1, some ⟨1, 2⟩), World.init Registry.sample) ∧
    Registry.sample.find ⟨1, 2⟩
        = some { Device.fresh 2 with bonding := some Method.pin_entry, temporary := true } ∧
    ((btd_event_ltk_notify Env.ok (World.init Registry.sample) 1 2 0 LeTuple.sample.key 1 0 16
        4660 LeTuple.sample.rand).1 = 0 ∧
      ∃ r, (btd_event_ltk_notify Env.ok (World.init Registry.sample) 1 2 0 LeTuple.sample.key
          1 0 16 4660 LeTuple.sample.rand).2.reg.find ⟨1, 2⟩ = some r ∧
        r.bonded = true ∧ r.temporary = false) :=
  ⟨by decide, by decide,
    (key_notify_flags Env.ok Registry.sample 1 2 0 LeTuple.sample.key 0 4 1 0 16 4660
      LeTuple.sample.rand 1 ⟨1, 2⟩ (World.init Registry.sample) (by decide)).1 (by decide)⟩

/-! ## Events about a peer without a device record -/

/-- With a known controller and no record for the peer, the handlers that test the
device pointer make no call and leave the world as it is. -/
theorem absent_device_ignored (env : Env) (reg : Registry) (l p status : Nat)
    (hmem : l ∈ reg.adapters) (hfind : reg.find ⟨l, p⟩ = none) :
    btd_event_conn_failed env (World.init reg) l p status = World.init reg ∧
    btd_event_disconn_complete env (World.init reg) l p = World.init reg ∧
    btd_event_device_blocked env (World.init reg) l p = World.init reg ∧
    btd_event_device_unblocked env (World.init reg) l p = World.init reg := by
  have hm : l ∈ (World.init reg).reg.adapters := hmem
  have hnone : adapter_find_device (World.init reg) l p = none := by
    simp [adapter_find_device, World.init, hfind]
  refine ⟨?_, ?_, ?_, ?_⟩
  · simp [btd_event_conn_failed, gad_find env _ l p hm, hnone]
  · simp [btd_event_disconn_complete, gad_find env _ l p hm, hnone]
  · simp [btd_event_device_blocked, gad_find env _ l p hm, hnone]
  · simp [btd_event_device_unblocked, gad_find env _ l p hm, hnone]

/-- With a known controller and no record for the peer, `btd_event_device_unpaired`
calls `device_set_temporary` on the NULL device pointer. -/
theorem device_unpaired_absent (env : Env) (reg : Registry) (l p : Nat)
    (hmem : l ∈ reg.adapters) (hfind : reg.find ⟨l, p⟩ = none) :
    (btd_event_device_unpaired env (World.init reg) l p).calls.head?
      = some (Call.device_set_temporary none true) := by
  have hm : l ∈ (World.init reg).reg.adapters := hmem
  have hnone : adapter_find_device (World.init reg) l p = none := by
    simp [adapter_find_device, World.init, hfind]
  simp only [btd_event_device_unpaired, gad_find env _ l p hm, hnone]
  simp [device_is_connected, device_set_temporary, Registry.deref, World.init, World.call,
    adapter_remove_device]

/-- C6 fails for `btd_event_device_unpaired`: with controller 1 known and no record for
peer 2 the first two calls of the handler are `device_set_temporary(NULL, TRUE)` and
`device_is_connected(NULL)`, while `btd_event_conn_failed`,
`btd_event_disconn_complete`, `btd_event_device_blocked` and
`btd_event_device_unblocked` make no call in the same state and leave it as it is. -/
theorem device_unpaired_null_device :
    1 ∈ Registry.no_device.adapters ∧ Registry.no_device.find ⟨1, 2⟩ = none ∧
    (btd_event_device_unpaired Env.ok (World.init Registry.no_device) 1 2).calls.take 2
      = [Call.device_set_temporary none true, Call.device_is_connected none] ∧
    btd_event_conn_failed Env.ok (World.init Registry.no_device) 1 2 4
      = World.init Registry.no_device ∧
    btd_event_disconn_complete Env.ok (World.init Registry.no_device) 1 2
      = World.init Registry.no_device ∧
    btd_event_device_blocked Env.ok (World.init Registry.no_device) 1 2
      = World.init Registry.no_device ∧
    btd_event_device_unblocked Env.ok (World.init Registry.no_device) 1 2
      = World.init Registry.no_device := by
  refine ⟨by decide, by decide, by decide, ?_⟩
  exact absent_device_ignored Env.ok Registry.no_device 1 2 4 (by decide) (by decide)

/-! ## Connection failures -/

/-- A connection failure for a record with no bonding session that is not temporary
cancels nothing and leaves the registry as it is. -/
theorem conn_failed_idle (env : Env) (reg : Registry) (l p status : Nat) (r : Device)
    (hmem : l ∈ reg.adapters) (hfind : reg.find ⟨l, p⟩ = some r)
    (hb : r.bonding = none) (ht : r.temporary = false) :
    (btd_event_conn_failed env (World.init reg) l p status).reg = reg ∧
    (btd_event_conn_failed env (World.init reg) l p status).calls.filter is_cancel_bonding
      = [] := by
  have hm : l ∈ (World.init reg).reg.adapters := hmem
  have hsome : adapter_find_device (World.init reg) l p = some ⟨l, p⟩ := by
    simp [adapter_find_device, World.init, hfind]
  simp only [btd_event_conn_failed, gad_find env _ l p hm, hsome]
  simp [device_is_bonding, device_is_temporary, Registry.deref, World.init, World.call,
    hfind, hb, ht, is_cancel_bonding]

/-- C10, as stated, fails: peer 2 is known, has no bonding session and is temporary; a
connection-failed event cancels nothing but removes the record, so the registry
changes. -/
theorem conn_failed_noop_counterexample :
    Registry.idle_temporary.find ⟨1, 2⟩ = some (Device.fresh 2) ∧
    (Device.fresh 2).bonding = none ∧
    (btd_event_conn_failed Env.ok (World.init Registry.idle_temporary) 1 2 4).calls
      = [Call.device_is_bonding (some ⟨1, 2⟩), Call.device_is_temporary (some ⟨1, 2⟩),
          Call.adapter_remove_device 1 (some ⟨1, 2⟩) true] ∧
    (btd_event_conn_failed Env.ok (World.init Registry.idle_temporary) 1 2 4).reg
      = { adapters := [1], devices := [] } ∧
    (btd_event_conn_failed Env.ok (World.init Registry.idle_temporary) 1 2 4).reg
      ≠ Registry.idle_temporary := by
  decide

/-- C10 (amended): over a registry in which cancel-bonding clears the bonding method
and removal deletes the record, for a known device: with an active bonding session
`btd_event_conn_failed(status)` calls `device_cancel_bonding` exactly once, with that
status; with no active session it calls no cancel, and it leaves the registry
unchanged when the device is not temporary (a temporary device is removed); in the
state reached right after a first connection-failed event a second one calls no cancel
and leaves the registry unchanged. -/
theorem conn_failed_cancels_once (env env2 : Env) (reg : Registry) (l p status status2 : Nat)
    (r : Device) (hmem : l ∈ reg.adapters) (hfind : reg.find ⟨l, p⟩ = some r) :
    (r.bonding.isSome = true →
      (btd_event_conn_failed env (World.init reg) l p status).calls.filter is_cancel_bonding
        = [Call.device_cancel_bonding (some ⟨l, p⟩) status]) ∧
    (r.bonding = none →
      (btd_event_conn_failed env (World.init reg) l p status).calls.filter is_cancel_bonding
        = [] ∧
      (r.temporary = false →
        (btd_event_conn_failed env (World.init reg) l p status).reg = reg) ∧
      (r.temporary = true →
        (btd_event_conn_failed env (World.init reg) l p status).reg
          = reg.remove (some ⟨l, p⟩))) ∧
    ((btd_event_conn_failed env2
        (World.init (btd_event_conn_failed env (World.init reg) l p status).reg) l p
        status2).calls.filter is_cancel_bonding = [] ∧
      (btd_event_conn_failed env2
        (World.init (btd_event_conn_failed env (World.init reg) l p status).reg) l p
        status2).reg = (btd_event_conn_failed env (World.init reg) l p status).reg) := by
  have hm : l ∈ (World.init reg).reg.adapters := hmem
  have hsome : adapter_find_device (World.init reg) l p = some ⟨l, p⟩ := by
    simp [adapter_find_device, World.init, hfind]
  have hmod : (reg.modify (some ⟨l, p⟩) (fun r => { r with bonding := none })).find ⟨l, p⟩
      = some { r with bonding := none } := by
    rw [find_modify reg ⟨l, p⟩ (fun r => { r with bonding := none }) (fun _ => rfl), hfind]
    rfl
  -- the registry after the first event
  have hreg : (btd_event_conn_failed env (World.init reg) l p status).reg =
      if r.temporary = true then
        (if r.bonding.isSome = true then
          reg.modify (some ⟨l, p⟩) (fun r => { r with bonding := none }) else reg).remove
          (some ⟨l, p⟩)
      else
        (if r.bonding.isSome = true then
          reg.modify (some ⟨l, p⟩) (fun r => { r with bonding := none }) else reg) := by
    simp only [btd_event_conn_failed, gad_find env _ l p hm, hsome]
    cases hb : r.bonding <;> cases ht : r.temporary <;>
      simp [device_is_bonding,
        device_is_temporary, device_cancel_bonding, adapter_remove_device, Registry.deref,
        World.init, World.call, hfind, hb, ht, hmod]
  have hcalls : (btd_event_conn_failed env (World.init reg) l p status).calls.filter
      is_cancel_bonding =
      if r.bonding.isSome = true then [Call.device_cancel_bonding (some ⟨l, p⟩) status]
      else [] := by
    simp only [btd_event_conn_failed, gad_find env _ l p hm, hsome]
    cases hb : r.bonding <;> cases ht : r.temporary <;>
      simp [device_is_bonding,
        device_is_temporary, device_cancel_bonding, adapter_remove_device, Registry.deref,
        World.init, World.call, hfind, hb, ht, hmod, is_cancel_bonding]
  refine ⟨?_, ?_, ?_⟩
  · intro hb
    rw [hcalls, if_pos hb]
  · intro hb
    refine ⟨?_, ?_, ?_⟩
    · rw [hcalls]; simp [hb]
    · intro ht; rw [hreg]; simp [hb, ht]
    · intro ht; rw [hreg]; simp [hb, ht]
  · rw [hreg]
    cases ht : r.temporary with
    | true =>
      have hadp : l ∈ (((if r.bonding.isSome = true then
          reg.modify (some ⟨l, p⟩) (fun r => { r with bonding := none }) else reg).remove
          (some ⟨l, p⟩))).adapters := by
        split <;> simpa [Registry.remove, Registry.modify] using hmem
      have := absent_device_ignored env2 _ l p status2 hadp (find_remove _ ⟨l, p⟩)
      simp only [if_true]
      rw [this.1]
      simp [World.init]
    | false =>
      simp only [Bool.false_eq_true, if_false]
      cases hb : r.bonding with
      | none =>
        simp only [Option.isSome_none, Bool.false_eq_true, if_false]
        have := conn_failed_idle env2 reg l p status2 r hmem hfind hb ht
        exact ⟨this.2, this.1⟩
      | some m =>
        simp only [Option.isSome_some, if_true]
        have := conn_failed_idle env2 _ l p status2 { r with bonding := none }
          (by simpa [Registry.modify] using hmem) hmod rfl ht
        exact ⟨this.2, this.1⟩

/-- Witness of C10 (amended): a known peer with a bonding session in progress. -/
theorem conn_failed_cancels_once_witness :
    1 ∈ Registry.sample.adapters ∧
    Registry.sample.find ⟨1, 2⟩
      = some { Device.fresh 2 with bonding := some Method.pin_entry } ∧
    (btd_event_conn_failed Env.ok (World.init Registry.sample) 1 2 4).calls.filter
      is_cancel_bonding = [Call.device_cancel_bonding (some ⟨1, 2⟩) 4] :=
  ⟨by decide, by decide,
    (conn_failed_cancels_once Env.ok Env.ok Registry.sample 1 2 4 4
      { Device.fresh 2 with bonding := some Method.pin_entry } (by decide) (by decide)).1
      (by decide)⟩

/-! ## Remote names -/

theorem g_strstrip_initial (s : List Nat) : g_strstrip s <+: g_strchug s := by
  simp only [g_strstrip, g_strchomp]
  exact List.rdropWhile_prefix g_ascii_isspace (g_strchug s)

theorem g_strstrip_sublist (s : List Nat) : (g_strstrip s).Sublist s :=
  (g_strstrip_initial s).sublist.trans (List.dropWhile_sublist g_ascii_isspace)

theorem g_strstrip_head (s : List Nat) (b : Nat) (h : (g_strstrip s).head? = some b) :
    g_ascii_isspace b = false := by
  obtain ⟨t, ht⟩ := g_strstrip_initial s
  have hh : (g_strchug s).head? = some b := by
    rw [← ht]
    cases hs : g_strstrip s with
    | nil => rw [hs] at h; simp at h
    | cons a r => rw [hs] at h; simpa using h
  have := List.head?_dropWhile_not g_ascii_isspace s
  simp only [g_strchug] at hh
  rw [hh] at this
  simpa using this

theorem g_strstrip_last (s : List Nat) (b : Nat) (h : (g_strstrip s).getLast? = some b) :
    g_ascii_isspace b = false := by
  have hne : g_strstrip s ≠ [] := by
    intro hn; rw [hn] at h; simp at h
  have hl := List.rdropWhile_last_not g_ascii_isspace (g_strchug s) hne
  rw [List.getLast?_eq_getLast _ hne] at h
  have hb : (g_strstrip s).getLast hne = b := by simpa using h
  have e : (List.rdropWhile g_ascii_isspace (g_strchug s)).getLast hne
      = (g_strstrip s).getLast hne := rfl
  rw [e, hb] at hl
  simpa using hl

/-- C7, as stated, fails: the name with bytes ff 41 07 42 is not valid UTF-8; the name
that is persisted and set on the device is 41 07 42, which keeps the control byte
0x07, a byte outside the printable range 0x20 to 0x7e. -/
theorem remote_name_control_byte_counterexample :
    g_utf8_validate [255, 65, 7, 66] = false ∧
    (btd_event_remote_name 249 Env.ok (World.init Registry.sample) 1 2 [255, 65, 7, 66]).calls
      = [Call.create_file 1 2, Call.g_key_file_set_string "General" "Name" [65, 7, 66],
          Call.g_file_set_contents 1 2, Call.device_set_name (some ⟨1, 2⟩) [65, 7, 66]] ∧
    ¬ (∀ b ∈ [65, 7, 66], printable b) := by
  refine ⟨by decide, by decide, ?_⟩
  intro h
  have := h 7 (by decide)
  simp [printable] at this

/-- C7 (amended): for a received name that is not valid UTF-8 and a known controller,
the name that is persisted, and set on the device when the device is known, is the
input truncated to `MGMT_MAX_NAME_LENGTH` bytes, with every byte from 0x80 up replaced
by a space and the white space of `g_ascii_isspace` stripped at both ends.  It holds
only ASCII bytes (below 0x80), each of them a byte of the input or a space, it neither
starts nor ends with white space, and it is at most `MGMT_MAX_NAME_LENGTH` bytes long.
Bytes below 0x80, the control bytes included, are not replaced. -/
theorem remote_name_sanitized (MGMT_MAX_NAME_LENGTH : Nat) (env : Env) (reg : Registry)
    (l p : Nat) (name : List Nat) (hmem : l ∈ reg.adapters)
    (hinv : g_utf8_validate name = false) :
    ∃ out : List Nat,
      out = g_strstrip ((name.take MGMT_MAX_NAME_LENGTH).map
        (fun c => if c < 128 then c else 32)) ∧
      stored_names (btd_event_remote_name MGMT_MAX_NAME_LENGTH env (World.init reg) l p
        name).calls = [out] ∧
      device_names (btd_event_remote_name MGMT_MAX_NAME_LENGTH env (World.init reg) l p
        name).calls = (if (reg.find ⟨l, p⟩).isSome then [out] else []) ∧
      (∀ b ∈ out, b < 128 ∧ (b ∈ name.take MGMT_MAX_NAME_LENGTH ∨ b = 32)) ∧
      (∀ b, out.head? = some b → g_ascii_isspace b = false) ∧
      (∀ b, out.getLast? = some b → g_ascii_isspace b = false) ∧
      out.length ≤ MGMT_MAX_NAME_LENGTH := by
  have hm : l ∈ (World.init reg).reg.adapters := hmem
  refine ⟨_, rfl, ?_, ?_, ?_, fun b => g_strstrip_head _ b, fun b => g_strstrip_last _ b, ?_⟩
  · simp only [btd_event_remote_name, hinv, if_true, gad_find env _ l p hm, strncpy, isascii]
    cases hf : reg.find ⟨l, p⟩ <;>
      simp [adapter_find_device, World.init, hf, World.call, device_set_name, stored_names]
  · simp only [btd_event_remote_name, hinv, if_true, gad_find env _ l p hm, strncpy, isascii]
    cases hf : reg.find ⟨l, p⟩ <;>
      simp [adapter_find_device, World.init, hf, World.call, device_set_name, device_names]
  · intro b hb
    have hsub := (g_strstrip_sublist _).subset hb
    simp only [List.mem_map] at hsub
    obtain ⟨c, hc, rfl⟩ := hsub
    by_cases h : c < 128
    · simp [h, hc]
    · simp [h]
  · have h1 := (g_strstrip_sublist ((name.take MGMT_MAX_NAME_LENGTH).map
      (fun c => if c < 128 then c else 32))).length_le
    have h2 : (name.take MGMT_MAX_NAME_LENGTH).length ≤ MGMT_MAX_NAME_LENGTH := by
      simp [List.length_take]
    rw [List.length_map] at h1
    exact h1.trans h2

/-- Witness of C7 (amended): a name of eight bytes with a maximum length of 6. -/
theorem remote_name_sanitized_witness :
    1 ∈ Registry.sample.adapters ∧ g_utf8_validate [255, 32, 65, 7, 66, 200, 67, 32] = false ∧
    ∃ out : List Nat,
      out = g_strstrip (([255, 32, 65, 7, 66, 200, 67, 32].take 6).map
        (fun c => if c < 128 then c else 32)) ∧
      stored_names (btd_event_remote_name 6 Env.ok (World.init Registry.sample) 1 2
        [255, 32, 65, 7, 66, 200, 67, 32]).calls = [out] ∧
      device_names (btd_event_remote_name 6 Env.ok (World.init Registry.sample) 1 2
        [255, 32, 65, 7, 66, 200, 67, 32]).calls
          = (if (Registry.sample.find ⟨1, 2⟩).isSome then [out] else []) ∧
      (∀ b ∈ out, b < 128 ∧ (b ∈ [255, 32, 65, 7, 66, 200, 67, 32].take 6 ∨ b = 32)) ∧
      (∀ b, out.head? = some b → g_ascii_isspace b = false) ∧
      (∀ b, out.getLast? = some b → g_ascii_isspace b = false) ∧
      out.length ≤ 6 :=
  ⟨by decide, by decide,
    remote_name_sanitized 6 Env.ok Registry.sample 1 2 [255, 32, 65, 7, 66, 200, 67, 32]
      (by decide) (by decide)⟩

end Bluez
